import Mathlib

/-!
Verification of the LLTF wrapper (`lltf_wrapper.py`).

A shallow embedding of the `LLTF` class of `src/lltf_wrapper.py` (the
Python wrapper around the NKT Photonics PE_Filter SDK), together with
theorems settling the specification claims about grating selection,
simulation-mode wavelength state, grating validation and session teardown.

Modelling conventions:
* Python floats are embedded as `Rat` (the wavelengths and range bounds
  involved are exact, and all operations used are order comparisons and
  addition, where `Rat` agrees with exact real arithmetic).
* The ctypes handle is `Option Nat` (`none` = Python `None`).
* The native DLL (`self.dll`) is modelled by a `Gateway` record carrying
  the status codes and values its six entry points would return, plus a
  `Bool` field `dll` in the session state recording whether the gateway
  has been loaded (`self.dll is not None`).
* `warnings.warn` is modelled by returning the warning as a value;
  exceptions (`raise LLTFError`) are modelled with `Except`.
* Error and warning messages are modelled structurally: each constructor
  carries exactly the data the Python code interpolates into the message
  string (for `unsupportedWavelength`, the wavelength and the list of
  `(index, reg_min, reg_max)` triples the code joins into
  `"Grating {index}: {reg_min}-{reg_max} nm"`).
-/

/-- One entry of `self.grating_ranges`: the dict
`{'index': i, 'regular_range': (reg_lower, reg_upper),
  'extended_range': (ext_lower, ext_upper)}` built by `_load_xml_config`. -/
structure GratingInfo where
  index : Nat
  regLower : Rat
  regUpper : Rat
  extLower : Rat
  extUpper : Rat
deriving DecidableEq, Repr

/-- A warning emitted through `warnings.warn`. The only warning emitted by
the wavelength path is the extended-range fallback message
`"Wavelength {wavelength} nm is in extended range for grating {index}"`. -/
inductive Warning where
  | extendedRange (wavelength : Rat) (index : Nat)
deriving DecidableEq, Repr

/-- The `LLTFError` exception, modelled structurally.  Each constructor
carries the data interpolated into the corresponding message string. -/
inductive LLTFError where
  /-- Message: `"Device not initialized. Call initialize() first."` -/
  | notInitialized
  /-- Message: `"Invalid grating index: {grating}. Must be 0 or 1."` -/
  | invalidGrating (grating : Int)
  /-- Message: `"Wavelength {wavelength} nm not supported. Available ranges: ..."`,
  where the ranges part joins `"Grating {index}: {reg_min}-{reg_max} nm"`
  for every configured grating, in stored order. -/
  | unsupportedWavelength (wavelength : Rat) (ranges : List (Nat × Rat × Rat))
  /-- Failure from `_check_status`: `"{operation} failed with status {status}"`. -/
  | statusError (operation : String) (status : Nat)
deriving DecidableEq, Repr

/-- Constant `PE_SUCCESS = 0` from the class constants. -/
def PE_SUCCESS : Nat := 0

/-- The native gateway (`PE_Filter_SDK.dll`): the status codes and output
values its entry points return for this session.  `newHandle` is the handle
value `PE_Create` writes through `byref(self.handle)`; `measured` is the
double `PE_GetWavelength` writes. -/
structure Gateway where
  createStatus : Nat
  openStatus : Nat
  getStatus : Nat
  setStatus : Nat
  closeStatus : Nat
  newHandle : Nat
  measured : Rat
deriving DecidableEq, Repr

/-- The mutable state of an `LLTF` instance (the fields assigned in
`__init__` that the claims exercise). -/
structure LLTF where
  dll : Bool
  handle : Option Nat
  grating_ranges : List GratingInfo
  system_name : Option String
  simulate_mode : Bool
  simulated_wavelength : Rat
deriving DecidableEq, Repr

/-- The `for i, grating in enumerate(gratings)` loop of `_load_xml_config`:
each parsed `(RegLower, RegUpper, ExtLower, ExtUpper)` tuple becomes a
`GratingInfo` whose `index` is its enumeration position. -/
def load_grating_ranges (raw : List (Rat × Rat × Rat × Rat)) : List GratingInfo :=
  (raw.enum).map fun p => ⟨p.1, p.2.1, p.2.2.1, p.2.2.2.1, p.2.2.2.2⟩

/-- Embeds `LLTF.__init__` after a successful `_load_xml_config`: the field
assignments of lines 59-65 with the parsed configuration installed.
`simulated_wavelength` starts at `550.0` ("Default starting wavelength for
simulation"). -/
def LLTF.new (raw : List (Rat × Rat × Rat × Rat)) (name : String) : LLTF :=
  { dll := false
    handle := none
    grating_ranges := load_grating_ranges raw
    system_name := some name
    simulate_mode := false
    simulated_wavelength := 550 }

/-- Containment `reg_min <= wavelength <= reg_max` in a grating's `regular_range`. -/
def inRegular (g : GratingInfo) (w : Rat) : Prop :=
  g.regLower ≤ w ∧ w ≤ g.regUpper

instance (g : GratingInfo) (w : Rat) : Decidable (inRegular g w) :=
  inferInstanceAs (Decidable (_ ∧ _))

/-- Containment `ext_min <= wavelength <= ext_max` in a grating's `extended_range`. -/
def inExtended (g : GratingInfo) (w : Rat) : Prop :=
  g.extLower ≤ w ∧ w ≤ g.extUpper

instance (g : GratingInfo) (w : Rat) : Decidable (inExtended g w) :=
  inferInstanceAs (Decidable (_ ∧ _))

/-- The first `for` loop of `_select_grating_for_wavelength`: scan the
stored ranges in order and return the `index` of the first grating whose
regular range contains the wavelength. -/
def findRegular (w : Rat) : List GratingInfo → Option Nat
  | [] => none
  | g :: rest => if inRegular g w then some g.index else findRegular w rest

/-- The second `for` loop of `_select_grating_for_wavelength`: the same
scan against the extended ranges. -/
def findExtended (w : Rat) : List GratingInfo → Option Nat
  | [] => none
  | g :: rest => if inExtended g w then some g.index else findExtended w rest

/-- Embeds `LLTF._select_grating_for_wavelength` (lines 157-188): regular scan,
then extended scan with a warning, then `LLTFError` listing every
grating's regular range. -/
def select_grating_for_wavelength (gs : List GratingInfo) (w : Rat) :
    Except LLTFError (Nat × Option Warning) :=
  match findRegular w gs with
  | some i => .ok (i, none)
  | none =>
    match findExtended w gs with
    | some i => .ok (i, some (.extendedRange w i))
    | none =>
      .error (.unsupportedWavelength w
        (gs.map fun g => (g.index, g.regLower, g.regUpper)))

/-- Embeds `LLTF._check_status` (lines 130-155): raise unless the status is
`PE_SUCCESS`. -/
def check_status (status : Nat) (operation : String) : Except LLTFError Unit :=
  if status ≠ PE_SUCCESS then .error (.statusError operation status) else .ok ()

/-- Python truthiness of `self.system_name` (`if self.system_name:`). -/
def nameTruthy : Option String → Bool
  | none => false
  | some s => !s.isEmpty

/-- Embeds `LLTF.initialize` (lines 190-221), named `initDevice` here.  Sets
`simulate_mode`; in simulation mode installs the dummy non-null handle
`c_void_p(1)` and returns.  Otherwise loads the DLL, creates the handle
through `PE_Create` (which writes `gw.newHandle`), checks the status, and
opens the device by `system_name` when that name is truthy. -/
def LLTF.initDevice (gw : Gateway) (simulate : Bool) (s : LLTF) :
    Except LLTFError LLTF :=
  let s1 := { s with simulate_mode := simulate }
  if simulate then
    .ok { s1 with handle := some 1 }
  else
    let s2 := { s1 with dll := true, handle := some gw.newHandle }
    match check_status gw.createStatus "PE_Create" with
    | .error e => .error e
    | .ok _ =>
      if nameTruthy s2.system_name then
        match check_status gw.openStatus "PE_Open" with
        | .error e => .error e
        | .ok _ => .ok s2
      else
        .ok s2

/-- Embeds `LLTF.get_wavelength` (lines 239-257): in simulation mode return the
simulated wavelength; otherwise require a handle and query the gateway. -/
def LLTF.get_wavelength (gw : Gateway) (s : LLTF) : Except LLTFError Rat :=
  if s.simulate_mode then
    .ok s.simulated_wavelength
  else if s.handle = none then
    .error .notInitialized
  else
    match check_status gw.getStatus "PE_GetWavelength" with
    | .error e => .error e
    | .ok _ => .ok gw.measured

/-- Embeds `LLTF.set_wavelength` (lines 259-285).  Requires a handle; auto-selects
the grating when none is supplied; validates `grating not in [0, 1]`; in
simulation mode records the wavelength as the new simulated state,
otherwise issues `PE_SetWavelengthOnGrating`.  Returns the updated state
and the warning (if any) emitted by grating selection. -/
def LLTF.set_wavelength (gw : Gateway) (s : LLTF) (wavelength : Rat)
    (grating : Option Int) : Except LLTFError (LLTF × Option Warning) :=
  if s.handle = none then
    .error .notInitialized
  else
    let sel : Except LLTFError (Int × Option Warning) :=
      match grating with
      | some g => .ok (g, none)
      | none =>
        match select_grating_for_wavelength s.grating_ranges wavelength with
        | .ok (i, warn) => .ok ((i : Int), warn)
        | .error e => .error e
    match sel with
    | .error e => .error e
    | .ok (g, warn) =>
      if g ∈ ([0, 1] : List Int) then
        if s.simulate_mode then
          .ok ({ s with simulated_wavelength := wavelength }, warn)
        else
          match check_status gw.setStatus "PE_SetWavelengthOnGrating" with
          | .error e => .error e
          | .ok _ => .ok (s, warn)
      else
        .error (.invalidGrating g)

/-- Embeds `LLTF.close` (lines 296-313).  In simulation mode it only prints and
returns (the state, in particular `handle`, is unchanged).  Otherwise, with
a handle present, `PE_Close` is issued and a failing status is swallowed
(`except LLTFError: pass`), `PE_Destroy` runs when `self.dll` is set, and
the handle is cleared.  The returned `Bool` records whether `PE_Destroy`
was executed. -/
def LLTF.close (gw : Gateway) (s : LLTF) : Except LLTFError (LLTF × Bool) :=
  if s.simulate_mode then
    .ok (s, false)
  else if s.handle = none then
    .ok (s, false)
  else
    let _swallowed : Unit :=
      match check_status gw.closeStatus "PE_Close" with
      | .ok u => u
      | .error _ => ()
    .ok ({ s with handle := none }, s.dll)

deriving instance DecidableEq for Except

/-!
Simulation sessions with measurement uncertainty.

Modelled from the spec: the package module `lltf_wrapper/lltf_wrapper.py`
(the one imported by `lltf_wrapper/__init__.py` and exercised by
`test_simple.py` and `test_uncertainty.py`) is not present in the sources;
per the spec (§4.2), its `initialize(simulate=True, uncertainty)` draws a
per-session offset once from a zero-mean distribution scaled by
`uncertainty` (zero uncertainty ⇒ zero offset, offset fixed for the life
of the session), records 550.0 nm as the baseline simulated state, and its
simulated `set_wavelength(W)` records `W + offset` as the simulated state,
which `get_wavelength` returns.  The raw zero-mean random draw is the
parameter `sample`; the offset is `uncertainty * sample`.
-/

/-- Modelled from the spec: the simulation-mode state of the uncertainty
variant — the fixed per-session `offset` and the current simulated
wavelength. -/
structure SimSession where
  offset : Rat
  wavelengthState : Rat
deriving DecidableEq, Repr

/-- Modelled from the spec: `initialize(simulate=True, uncertainty)` of the
missing module.  `sample` is the raw zero-mean random draw; the offset is
drawn exactly once here, scaled by `uncertainty`, and the baseline state is
550.0 nm. -/
def sim_session_start (uncertainty sample : Rat) : SimSession :=
  { offset := uncertainty * sample, wavelengthState := 550 }

/-- Modelled from the spec: simulated `set_wavelength(W)` of the missing
module records `W + offset` as the new simulated state. -/
def SimSession.setWavelength (sess : SimSession) (w : Rat) : SimSession :=
  { sess with wavelengthState := w + sess.offset }

/-- Modelled from the spec: simulated `get_wavelength()` of the missing
module returns the recorded simulated state. -/
def SimSession.getWavelength (sess : SimSession) : Rat :=
  sess.wavelengthState

/-- A sequence of set/get cycles within one session: for each requested
wavelength, set it, then read back; collect `(set, measured)` pairs. -/
def sim_run_cycles (sess : SimSession) : List Rat → List (Rat × Rat)
  | [] => []
  | w :: rest =>
    let sess' := sess.setWavelength w
    (w, sess'.getWavelength) :: sim_run_cycles sess' rest

/-!
Concrete sample configurations and sessions.

Concrete values used by witnesses and counterexamples.  `sampleRaw` is the
two-grating configuration from the spec's scenario (grating 0 regular
range [400, 700], grating 1 regular range [650, 1000], with extended
ranges [350, 750] and [600, 1050]).
-/

/-- The spec scenario's parsed range tuples
`(RegLower, RegUpper, ExtLower, ExtUpper)`. -/
def sampleRaw : List (Rat × Rat × Rat × Rat) :=
  [(400, 700, 350, 750), (650, 1000, 600, 1050)]

/-- The grating list the loader builds from `sampleRaw`. -/
def sampleRanges : List GratingInfo :=
  load_grating_ranges sampleRaw

/-- A system name as in the vendor example. -/
def sampleName : String := "LLTF Contrast M000010263"

/-- A gateway whose every call succeeds. -/
def sampleGateway : Gateway :=
  { createStatus := 0, openStatus := 0, getStatus := 0, setStatus := 0
    closeStatus := 0, newHandle := 7, measured := 500 }

/-- A gateway whose `PE_Close` fails with status 2
(`PE_FAILURE`, "Instrument communication failure"). -/
def failGateway : Gateway :=
  { createStatus := 0, openStatus := 0, getStatus := 0, setStatus := 0
    closeStatus := 2, newHandle := 7, measured := 500 }

/-- The sample session right after `initialize(simulate=True)`. -/
def simStarted : LLTF :=
  { LLTF.new sampleRaw sampleName with simulate_mode := true, handle := some 1 }

/-- State `simStarted` after a simulated `set_wavelength(600.0)`. -/
def simAfterSet600 : LLTF :=
  { simStarted with simulated_wavelength := 600 }

/-- A real-mode (non-simulated) session after a successful `initialize()`
against `sampleGateway` (DLL loaded, handle written by `PE_Create`). -/
def realSession : LLTF :=
  { LLTF.new sampleRaw sampleName with dll := true, handle := some 7 }

/-- A session whose configuration holds a single grating (index 0). -/
def singleRangeSession : LLTF :=
  { dll := false, handle := some 1
    grating_ranges := [⟨0, 400, 1000, 350, 1050⟩]
    system_name := some sampleName, simulate_mode := true
    simulated_wavelength := 550 }

/-!
Helper lemmas about the grating scans.
-/

theorem findRegular_append (w : Rat) (pre post : List GratingInfo)
    (g : GratingInfo) (hg : inRegular g w)
    (hpre : ∀ g' ∈ pre, ¬ inRegular g' w) :
    findRegular w (pre ++ g :: post) = some g.index := by
  induction pre with
  | nil => simp [findRegular, hg]
  | cons a t ih =>
    have ha : ¬ inRegular a w := hpre a (List.mem_cons_self a t)
    simp only [List.cons_append, findRegular, if_neg ha]
    exact ih fun g' hg' => hpre g' (List.mem_cons_of_mem a hg')

theorem findRegular_none (w : Rat) (gs : List GratingInfo)
    (h : ∀ g ∈ gs, ¬ inRegular g w) : findRegular w gs = none := by
  induction gs with
  | nil => rfl
  | cons a t ih =>
    simp only [findRegular, if_neg (h a (List.mem_cons_self a t))]
    exact ih fun g hg => h g (List.mem_cons_of_mem a hg)

theorem findExtended_append (w : Rat) (pre post : List GratingInfo)
    (g : GratingInfo) (hg : inExtended g w)
    (hpre : ∀ g' ∈ pre, ¬ inExtended g' w) :
    findExtended w (pre ++ g :: post) = some g.index := by
  induction pre with
  | nil => simp [findExtended, hg]
  | cons a t ih =>
    have ha : ¬ inExtended a w := hpre a (List.mem_cons_self a t)
    simp only [List.cons_append, findExtended, if_neg ha]
    exact ih fun g' hg' => hpre g' (List.mem_cons_of_mem a hg')

theorem findExtended_none (w : Rat) (gs : List GratingInfo)
    (h : ∀ g ∈ gs, ¬ inExtended g w) : findExtended w gs = none := by
  induction gs with
  | nil => rfl
  | cons a t ih =>
    simp only [findExtended, if_neg (h a (List.mem_cons_self a t))]
    exact ih fun g hg => h g (List.mem_cons_of_mem a hg)

theorem sim_run_cycles_diff (ws : List Rat) (sess : SimSession) :
    (sim_run_cycles sess ws).map (fun p => p.2 - p.1)
      = ws.map fun _ => sess.offset := by
  induction ws generalizing sess with
  | nil => rfl
  | cons w rest ih =>
    simp [sim_run_cycles, SimSession.setWavelength, SimSession.getWavelength, ih]

/-!
Claim theorems.
-/

/-- Claim C1: Automatic grating selection (run by `set_wavelength` when no
grating is supplied) scans the configured ranges in stored order and
returns the index of the first grating whose regular range contains the
wavelength, with inclusive boundary comparison and no warning.  Stated for
an arbitrary stored list split as `pre ++ g :: post` where `g` is the
first regular match. -/
theorem C1_first_regular_match (w : Rat) (pre post : List GratingInfo)
    (g : GratingInfo) (hg : inRegular g w)
    (hpre : ∀ g' ∈ pre, ¬ inRegular g' w) :
    select_grating_for_wavelength (pre ++ g :: post) w = .ok (g.index, none) := by
  unfold select_grating_for_wavelength
  rw [findRegular_append w pre post g hg hpre]

/-- Witness for claim C1: The spec scenario: grating 0 regular range [400, 700],
grating 1 regular range [650, 1000]; requesting 650 nm returns grating 0
(first match, order-sensitive, inclusive upper bound) with no warning. -/
theorem C1_witness :
    select_grating_for_wavelength
      [⟨0, 400, 700, 350, 750⟩, ⟨1, 650, 1000, 600, 1050⟩] 650
      = .ok (0, none) :=
  C1_first_regular_match 650 [] [⟨1, 650, 1000, 600, 1050⟩]
    ⟨0, 400, 700, 350, 750⟩ (by decide) (by decide)

/-- Claim C2: For a wavelength contained in no grating's regular range but in
at least one extended range, selection re-scans the stored order against
the extended ranges, returns the first extended match's index, and emits
the non-fatal extended-range warning. -/
theorem C2_extended_fallback (w : Rat) (pre post : List GratingInfo)
    (g : GratingInfo)
    (hnoreg : ∀ g' ∈ pre ++ g :: post, ¬ inRegular g' w)
    (hg : inExtended g w)
    (hpre : ∀ g' ∈ pre, ¬ inExtended g' w) :
    select_grating_for_wavelength (pre ++ g :: post) w
      = .ok (g.index, some (.extendedRange w g.index)) := by
  unfold select_grating_for_wavelength
  rw [findRegular_none w _ hnoreg, findExtended_append w pre post g hg hpre]

/-- Witness for claim C2: 380 nm lies outside both regular ranges but inside
grating 0's extended range [350, 750]: selection returns grating 0 with
the extended-range warning. -/
theorem C2_witness :
    select_grating_for_wavelength sampleRanges 380
      = .ok (0, some (.extendedRange 380 0)) :=
  C2_extended_fallback 380 [] [⟨1, 650, 1000, 600, 1050⟩]
    ⟨0, 400, 700, 350, 750⟩ (by decide) (by decide) (by decide)

/-- Claim C3: For a wavelength in no regular and no extended range,
`set_wavelength` called without an explicit grating on an initialized
session fails with the unsupported-wavelength error, whose message data
enumerates every configured grating's regular range in stored order. -/
theorem C3_unsupported_wavelength (gw : Gateway) (s : LLTF) (w : Rat)
    (hinit : ¬ s.handle = none)
    (hreg : ∀ g ∈ s.grating_ranges, ¬ inRegular g w)
    (hext : ∀ g ∈ s.grating_ranges, ¬ inExtended g w) :
    LLTF.set_wavelength gw s w none
      = .error (.unsupportedWavelength w
          (s.grating_ranges.map fun g => (g.index, g.regLower, g.regUpper))) := by
  unfold LLTF.set_wavelength
  rw [if_neg hinit]
  simp only [select_grating_for_wavelength,
    findRegular_none w _ hreg, findExtended_none w _ hext]

/-- Witness for claim C3: 2000 nm is in no configured range: the error carries
both regular ranges, `Grating 0: 400-700`, `Grating 1: 650-1000`. -/
theorem C3_witness :
    LLTF.set_wavelength sampleGateway simStarted 2000 none
      = .error (.unsupportedWavelength 2000 [(0, 400, 700), (1, 650, 1000)]) :=
  C3_unsupported_wavelength sampleGateway simStarted 2000
    (by decide) (by decide) (by decide)

/-- Claim C4: (Modelled from the spec; see `sim_session_start`.)  The
per-session offset is drawn exactly once at initialization, scaled by
`uncertainty` (uncertainty 0 gives offset exactly 0); setting a wavelength
never changes the offset; and across any sequence of set/get cycles within
one session the difference measured minus set is the constant
`uncertainty * sample`. -/
theorem C4_offset_fixed_per_session (u z w : Rat) (ws : List Rat) :
    (sim_session_start 0 z).offset = 0 ∧
    ((sim_session_start u z).setWavelength w).offset
      = (sim_session_start u z).offset ∧
    (sim_run_cycles (sim_session_start u z) ws).map (fun p => p.2 - p.1)
      = ws.map fun _ => u * z := by
  refine ⟨zero_mul z, rfl, ?_⟩
  rw [sim_run_cycles_diff]
  rfl

/-- Characterisation of a successful simulated `set_wavelength`: the only
state change is that the requested wavelength becomes the simulated
state. -/
theorem set_wavelength_sim_ok (gw : Gateway) (s : LLTF) (w : Rat)
    (grating : Option Int) (s' : LLTF) (warn : Option Warning)
    (hsim : s.simulate_mode = true)
    (hset : LLTF.set_wavelength gw s w grating = .ok (s', warn)) :
    s' = { s with simulated_wavelength := w } := by
  unfold LLTF.set_wavelength at hset
  repeat' split at hset
  all_goals simp_all
  all_goals (split at hset <;> simp_all)

/-- Claim C5: In simulation mode (the source stores the requested wavelength
exactly, i.e. uncertainty 0), whenever `set_wavelength` accepts a
wavelength `w`, a subsequent `get_wavelength` returns exactly `w`. -/
theorem C5_sim_roundtrip (gw : Gateway) (s s' : LLTF) (w : Rat)
    (grating : Option Int) (warn : Option Warning)
    (hsim : s.simulate_mode = true)
    (hset : LLTF.set_wavelength gw s w grating = .ok (s', warn)) :
    LLTF.get_wavelength gw s' = .ok w := by
  have key := set_wavelength_sim_ok gw s w grating s' warn hsim hset
  subst key
  simp [LLTF.get_wavelength, hsim]

/-- Witness for claim C5: Setting 600 nm on the simulated sample session and
reading back yields exactly 600 nm. -/
theorem C5_witness :
    LLTF.get_wavelength sampleGateway simAfterSet600 = .ok 600 :=
  C5_sim_roundtrip sampleGateway simStarted simAfterSet600 600 none none
    (by decide) (by decide)

/-- Counterexample for claim C6: The claim says the explicit grating index is
validated against the configured indices.  With a configuration holding a
single grating (only index 0 configured), `set_wavelength(500, grating=1)`
succeeds instead of failing with the invalid-grating error: the code
checks membership in the fixed list `[0, 1]`, not in the configured
index set. -/
theorem C6_counterexample :
    singleRangeSession.grating_ranges.map GratingInfo.index = [0] ∧
    LLTF.set_wavelength sampleGateway singleRangeSession 500 (some 1)
      = .ok ({ singleRangeSession with simulated_wavelength := 500 }, none) := by
  constructor
  · rfl
  · decide

/-- Amended claim C6: An explicitly supplied grating index is validated
against the fixed set `[0, 1]` (independently of which indices are
configured); an index outside that set makes `set_wavelength` fail with
`invalidGrating`. -/
theorem C6_amended_fixed_grating_set (gw : Gateway) (s : LLTF) (w : Rat)
    (g : Int) (hh : ¬ s.handle = none) (hg : g ∉ ([0, 1] : List Int)) :
    LLTF.set_wavelength gw s w (some g) = .error (.invalidGrating g) := by
  unfold LLTF.set_wavelength
  rw [if_neg hh]
  simp only []
  rw [if_neg hg]

/-- Witness for claim C6: Grating index 2 is rejected with `invalidGrating`. -/
theorem C6_witness :
    LLTF.set_wavelength sampleGateway simStarted 500 (some 2)
      = .error (.invalidGrating 2) :=
  C6_amended_fixed_grating_set sampleGateway simStarted 500 2
    (by decide) (by decide)

/-- Counterexample for claim C7: The claim says the handle is null after
`close()` in simulation mode as well as real mode.  In simulation mode
`close()` returns early (after printing) and leaves the handle untouched:
after `initialize(simulate=True)` and `close()`, the handle is still the
dummy non-null handle. -/
theorem C7_counterexample :
    LLTF.initDevice sampleGateway true (LLTF.new sampleRaw sampleName)
      = .ok simStarted ∧
    LLTF.close sampleGateway simStarted = .ok (simStarted, false) ∧
    simStarted.handle = some 1 := by
  refine ⟨?_, rfl, rfl⟩
  rfl

/-- Amended claim C7: After `close()` returns, the handle is null in real
(non-simulation) mode, regardless of the status the native close call
returned; in simulation mode `close()` leaves the session state (and in
particular the handle) unchanged. -/
theorem C7_amended_handle_cleared (gw : Gateway) (s s' : LLTF) (b : Bool)
    (h : LLTF.close gw s = .ok (s', b)) :
    (s.simulate_mode = false → s'.handle = none) ∧
    (s.simulate_mode = true → s' = s) := by
  unfold LLTF.close at h
  split at h
  · simp_all
  · split at h
    · simp_all
    · simp only [Except.ok.injEq, Prod.mk.injEq] at h
      obtain ⟨h1, h2⟩ := h
      constructor
      · intro _
        rw [← h1]
      · intro hs
        simp_all

/-- Witness for claim C7: A real-mode session closed against a gateway whose
native close fails (status 2): the handle is cleared anyway. -/
theorem C7_witness :
    (realSession.simulate_mode = false →
      ({ realSession with handle := none } : LLTF).handle = none) ∧
    (realSession.simulate_mode = true →
      ({ realSession with handle := none } : LLTF) = realSession) :=
  C7_amended_handle_cleared failGateway realSession
    { realSession with handle := none } true (by decide)

/-- Claim C8: `close()` never raises: for every gateway and state it returns
a result; a second `close()` right after a first one never raises either;
and in real mode with a handle present the failing native close status is
swallowed, the handle is cleared, and `PE_Destroy` executes exactly when
the DLL gateway is loaded (`s.dll`). -/
theorem C8_close_never_raises (gw : Gateway) (s : LLTF) :
    (∃ r, LLTF.close gw s = .ok r) ∧
    (∀ s' b, LLTF.close gw s = .ok (s', b) → ∃ r, LLTF.close gw s' = .ok r) ∧
    (s.simulate_mode = false → ¬ s.handle = none →
      LLTF.close gw s = .ok ({ s with handle := none }, s.dll)) := by
  refine ⟨?_, ?_, ?_⟩
  · unfold LLTF.close
    split
    · exact ⟨_, rfl⟩
    · split
      · exact ⟨_, rfl⟩
      · exact ⟨_, rfl⟩
  · intro s' b _
    unfold LLTF.close
    split
    · exact ⟨_, rfl⟩
    · split
      · exact ⟨_, rfl⟩
      · exact ⟨_, rfl⟩
  · intro hsim hh
    unfold LLTF.close
    rw [if_neg (by simp [hsim]), if_neg hh]

/-- Witness for claim C8: Closing the real-mode sample session against the
gateway whose native close returns failure status 2: the failure is
swallowed, destroy runs (`true`), and the handle is cleared; the result is
returned, not raised. -/
theorem C8_witness :
    LLTF.close failGateway realSession
      = .ok ({ realSession with handle := none }, true) :=
  (C8_close_never_raises failGateway realSession).2.2 rfl (by decide)

/-- Counterexample for claim C9: The claim says every `initialize(simulate=True)`
records the 550.0 nm baseline, so that a `get_wavelength` right after a
re-initialization returns 550.0 even after earlier `set_wavelength` calls.
In the code the 550.0 baseline is assigned only in `__init__`;
`initialize` does not touch `simulated_wavelength`.  Concretely: set
600 nm, re-initialize, and `get_wavelength` returns 600, not 550. -/
theorem C9_counterexample :
    LLTF.set_wavelength sampleGateway simStarted 600 none
      = .ok (simAfterSet600, none) ∧
    LLTF.initDevice sampleGateway true simAfterSet600 = .ok simAfterSet600 ∧
    LLTF.get_wavelength sampleGateway simAfterSet600 = .ok 600 ∧
    (600 : Rat) ≠ 550 := by
  refine ⟨by decide, rfl, rfl, by decide⟩

/-- Amended claim C9: The 550.0 nm baseline simulated state is recorded at
construction (`__init__`), not by `initialize`: a freshly constructed
session initialized in simulation mode reads back 550.0, but
`initialize(simulate=True)` preserves whatever simulated wavelength the
session already had (it does not reset the baseline). -/
theorem C9_amended_baseline_at_construction (gw : Gateway)
    (raw : List (Rat × Rat × Rat × Rat)) (name : String) (s s' : LLTF)
    (h : LLTF.initDevice gw true s = .ok s') :
    (∃ s0, LLTF.initDevice gw true (LLTF.new raw name) = .ok s0 ∧
      LLTF.get_wavelength gw s0 = .ok 550) ∧
    s'.simulated_wavelength = s.simulated_wavelength := by
  constructor
  · exact ⟨_, rfl, rfl⟩
  · unfold LLTF.initDevice at h
    simp only [if_pos] at h
    cases h
    rfl

/-- Witness for claim C9: Re-initializing the session that had 600 nm set keeps
its simulated wavelength at 600 (and a fresh session reads 550). -/
theorem C9_witness :
    (∃ s0, LLTF.initDevice sampleGateway true (LLTF.new sampleRaw sampleName)
        = .ok s0 ∧
      LLTF.get_wavelength sampleGateway s0 = .ok 550) ∧
    simAfterSet600.simulated_wavelength = simAfterSet600.simulated_wavelength :=
  C9_amended_baseline_at_construction sampleGateway sampleRaw sampleName
    simAfterSet600 simAfterSet600 (by decide)

/-- Claim C10: Supplying an explicit grating index in `[0, 1]` bypasses all
wavelength-range checking: on an initialized simulation-mode session,
`set_wavelength(w, g)` succeeds for every wavelength `w` (also outside all
configured ranges) and records `w` as the simulated state; moreover, with
an explicit grating the call can never fail with the
unsupported-wavelength error, whatever the index. -/
theorem C10_explicit_grating_bypasses_ranges (gw : Gateway) (s : LLTF)
    (w : Rat) (g : Int) (hsim : s.simulate_mode = true)
    (hh : ¬ s.handle = none) (hg : g ∈ ([0, 1] : List Int)) :
    LLTF.set_wavelength gw s w (some g)
      = .ok ({ s with simulated_wavelength := w }, none) ∧
    ∀ (g' : Int) (e : LLTFError),
      LLTF.set_wavelength gw s w (some g') = .error e →
      ∀ (wv : Rat) (rs : List (Nat × Rat × Rat)),
        e ≠ .unsupportedWavelength wv rs := by
  constructor
  · unfold LLTF.set_wavelength
    rw [if_neg hh]
    simp only []
    rw [if_pos hg, if_pos hsim]
  · intro g' e he wv rs
    unfold LLTF.set_wavelength at he
    rw [if_neg hh] at he
    simp only [] at he
    repeat' split at he
    all_goals simp_all
    all_goals (rw [← he]; simp)

/-- Witness for claim C10: 2000 nm is outside every configured regular and
extended range, yet `set_wavelength(2000, grating=1)` succeeds in the
simulated sample session and records 2000 nm. -/
theorem C10_witness :
    LLTF.set_wavelength sampleGateway simStarted 2000 (some 1)
      = .ok ({ simStarted with simulated_wavelength := 2000 }, none) :=
  (C10_explicit_grating_bypasses_ranges sampleGateway simStarted 2000 1
    rfl (by decide) (by decide)).1
